import Mathlib

/-!
Shallow embedding of the Agrarian BNPL decision engine
(scoring_engine.py, product_matcher.py, bnpl_policy.py, generator.py, api.py).

Numeric values are modelled with exact rationals (`ℚ`); Python's
`round(x, -3)` (round-half-to-even to the nearest 1000) is modelled by an
explicit `roundHalfEven`.  Python's `ZeroDivisionError` on float division by
zero is modelled by `Except`.
-/

/-- Applicant feature record: the dict / pandas row consumed by the engine. -/
structure Row where
  region : String
  farm_type : String
  crop_type : String
  farm_size_ha : ℚ
  years_experience : ℤ
  monthly_income_est : ℚ
  recent_cash_inflows : ℚ
  avg_order_value : ℚ
  device_trust_score : ℚ
  identity_consistency : ℚ
  prior_defaults : ℤ
  liquidity_ratio : ℚ
deriving DecidableEq

/-- Round-half-to-even on rationals, the rounding used by Python's `round`. -/
def roundHalfEven (q : ℚ) : ℤ :=
  let f := ⌊q⌋
  if q - f < 1/2 then f
  else if q - f > 1/2 then f + 1
  else if f % 2 = 0 then f else f + 1

/- ===== bnpl_policy.py ===== -/

/-- `base_limits.get(recommended_product, 50000)` from `compute_bnpl_limit`. -/
def base_limits_get (recommended_product : String) : ℚ :=
  if recommended_product = "Seeds_BNPL" then 20000
  else if recommended_product = "Fertilizer_BNPL" then 35000
  else if recommended_product = "Equipment_Lease" then 150000
  else if recommended_product = "Input_Bundle" then 50000
  else if recommended_product = "Cash_Advance" then 10000
  else if recommended_product = "Premium_BNPL" then 75000
  else 50000

/-- `risk_multiplier = max(0.2, 1 - (late_payment_prob * 2.5))`. -/
def risk_multiplier (late_payment_prob : ℚ) : ℚ :=
  max 0.2 (1 - late_payment_prob * 2.5)

/-- `income_multiplier = min(2.5, row['monthly_income_est'] / 50000)`. -/
def income_multiplier (row : Row) : ℚ :=
  min 2.5 (row.monthly_income_est / 50000)

/-- Tenure multiplier: `1.0`, `*1.3` if commercial, `*1.2` if
`years_experience > 15`, `*1.1` if `device_trust_score > 85`. -/
def tenure_multiplier (row : Row) : ℚ :=
  let t1 : ℚ := 1
  let t2 := if row.farm_type = "commercial" then t1 * 1.3 else t1
  let t3 := if row.years_experience > 15 then t2 * 1.2 else t2
  if row.device_trust_score > 85 then t3 * 1.1 else t3

/-- `compute_bnpl_limit(row, recommended_product, late_payment_prob)`:
declines (0) when PD ≥ 0.50, otherwise base × risk × income × tenure,
rounded to the nearest 1000 (Python half-to-even) and truncated to int. -/
def compute_bnpl_limit (row : Row) (recommended_product : String)
    (late_payment_prob : ℚ) : ℤ :=
  if late_payment_prob ≥ 0.50 then 0
  else
    let bnpl_limit := base_limits_get recommended_product *
      risk_multiplier late_payment_prob * income_multiplier row *
      tenure_multiplier row
    roundHalfEven (bnpl_limit / 1000) * 1000

/-- `base_tenors.get(recommended_product, 6)` from `compute_bnpl_tenor`. -/
def base_tenors_get (recommended_product : String) : ℤ :=
  if recommended_product = "Seeds_BNPL" then 4
  else if recommended_product = "Fertilizer_BNPL" then 3
  else if recommended_product = "Equipment_Lease" then 12
  else if recommended_product = "Input_Bundle" then 6
  else if recommended_product = "Cash_Advance" then 2
  else if recommended_product = "Premium_BNPL" then 6
  else 6

/-- `compute_bnpl_tenor(row, recommended_product, late_payment_prob)`:
declines (0) when PD ≥ 0.50, otherwise risk-shortened base tenor with a
crop-cycle override applied last. -/
def compute_bnpl_tenor (row : Row) (recommended_product : String)
    (late_payment_prob : ℚ) : ℤ :=
  if late_payment_prob ≥ 0.50 then 0
  else
    let base_tenor := base_tenors_get recommended_product
    let tenor :=
      if late_payment_prob < 0.15 then base_tenor
      else if late_payment_prob < 0.30 then max 2 (base_tenor - 1)
      else max 2 (base_tenor - 2)
    if row.crop_type = "maize" ∨ row.crop_type = "rice" then min tenor 4
    else if row.crop_type = "horticulture" then min tenor 3
    else tenor

/- ===== scoring_engine.py ===== -/

/-- `compute_linear_risk_score(row)`: eight weighted sub-risks combined
linearly; the lookup tables and bucket functions are inlined as in the
source. -/
def compute_linear_risk_score (row : Row) : ℚ :=
  let region_risk : ℚ :=
    if row.region = "North" then 0.15
    else if row.region = "South" then 0.25
    else if row.region = "East" then 0.15
    else if row.region = "West" then 0.30
    else if row.region = "Central" then 0.20
    else 0.20
  let farm_type_risk : ℚ :=
    if row.farm_type = "smallholder" then 0.35
    else if row.farm_type = "commercial" then 0.10
    else if row.farm_type = "cooperative" then 0.20
    else 0.25
  let experience_risk : ℚ :=
    if row.years_experience ≤ 2 then 0.40
    else if row.years_experience ≤ 10 then 0.25
    else if row.years_experience ≤ 20 then 0.15
    else 0.10
  let prior_defaults_risk : ℚ := min ((row.prior_defaults : ℚ) * 0.15) 0.75
  let liquidity_norm : ℚ := min (row.liquidity_ratio / 3.0) 1.0
  let liquidity_risk : ℚ := 1 - liquidity_norm
  let farm_size_risk : ℚ :=
    if row.farm_size_ha < 1 then 0.30
    else if row.farm_size_ha < 10 then 0.10
    else if row.farm_size_ha < 100 then 0.05
    else 0.15
  let device_risk : ℚ := (100 - row.device_trust_score) / 100
  let identity_risk : ℚ := (100 - row.identity_consistency) / 100
  0.12 * region_risk + 0.18 * farm_type_risk + 0.15 * experience_risk +
    0.20 * prior_defaults_risk + 0.10 * liquidity_risk +
    0.08 * farm_size_risk + 0.10 * device_risk + 0.07 * identity_risk

/-- `sigmoid_pd_mapping(linear_score, k, theta)` over the reals. -/
noncomputable def sigmoid_pd_mapping (linear_score k theta : ℝ) : ℝ :=
  1.0 / (1.0 + Real.exp (-k * (linear_score - theta)))

/-- `get_risk_tier(late_payment_prob)`. -/
def get_risk_tier (late_payment_prob : ℚ) : String :=
  if late_payment_prob < 0.15 then "Low"
  else if late_payment_prob < 0.35 then "Medium"
  else if late_payment_prob < 0.50 then "High"
  else "Decline"

/-- `get_decision(late_payment_prob)`. -/
def get_decision (late_payment_prob : ℚ) : String :=
  if late_payment_prob < 0.15 then "approve"
  else if late_payment_prob < 0.50 then "manual_review"
  else "decline"

/-- One entry of `explain_score`'s `components` list. -/
structure Component where
  feature : String
  raw_risk : ℚ
  weight : ℚ
  contribution : ℚ
deriving DecidableEq

/-- The dict returned by `explain_score`. -/
structure ExplainResult where
  linear_risk_score : ℚ
  total_contributors : ℕ
  top_3_contributors : List Component
  all_components : List Component

/-- Stable insert for descending-by-key order (Python `sorted`/`list.sort`
with `reverse=True` is a stable descending sort). -/
def insertDescBy {α β : Type} [LinearOrder β] (key : α → β) (x : α) :
    List α → List α
  | [] => [x]
  | y :: ys => if key x < key y then y :: insertDescBy key x ys else x :: y :: ys

/-- Stable descending insertion sort by key, modelling
`sorted(l, key=key, reverse=True)`. -/
def sortDescBy {α β : Type} [LinearOrder β] (key : α → β) :
    List α → List α
  | [] => []
  | x :: xs => insertDescBy key x (sortDescBy key xs)

/-- `explain_score(row, linear_score)`: recomputes the eight sub-risks with
the same (duplicated) inline formulas as the source function and ranks the
weighted contributions in descending order. -/
def explain_score (row : Row) (linear_score : ℚ) : ExplainResult :=
  let region_risk : ℚ :=
    if row.region = "North" then 0.15
    else if row.region = "South" then 0.25
    else if row.region = "East" then 0.15
    else if row.region = "West" then 0.30
    else if row.region = "Central" then 0.20
    else 0.20
  let farm_type_risk : ℚ :=
    if row.farm_type = "smallholder" then 0.35
    else if row.farm_type = "commercial" then 0.10
    else if row.farm_type = "cooperative" then 0.20
    else 0.25
  let experience_risk : ℚ :=
    if row.years_experience ≤ 2 then 0.40
    else if row.years_experience ≤ 10 then 0.25
    else if row.years_experience ≤ 20 then 0.15
    else 0.10
  let prior_defaults_risk : ℚ := min ((row.prior_defaults : ℚ) * 0.15) 0.75
  let liquidity_risk : ℚ := 1 - min (row.liquidity_ratio / 3.0) 1.0
  let farm_size_risk : ℚ :=
    if row.farm_size_ha < 1 then 0.30
    else if row.farm_size_ha < 10 then 0.10
    else if row.farm_size_ha < 100 then 0.05
    else 0.15
  let device_risk : ℚ := (100 - row.device_trust_score) / 100
  let identity_risk : ℚ := (100 - row.identity_consistency) / 100
  let components : List Component :=
    [⟨"region_risk", region_risk, 0.12, 0.12 * region_risk⟩,
     ⟨"farm_type_risk", farm_type_risk, 0.18, 0.18 * farm_type_risk⟩,
     ⟨"experience_risk", experience_risk, 0.15, 0.15 * experience_risk⟩,
     ⟨"prior_defaults", prior_defaults_risk, 0.20, 0.20 * prior_defaults_risk⟩,
     ⟨"liquidity_risk", liquidity_risk, 0.10, 0.10 * liquidity_risk⟩,
     ⟨"farm_size_risk", farm_size_risk, 0.08, 0.08 * farm_size_risk⟩,
     ⟨"device_trust", device_risk, 0.10, 0.10 * device_risk⟩,
     ⟨"identity_consistency", identity_risk, 0.07, 0.07 * identity_risk⟩]
  let components_sorted := sortDescBy (fun c => c.contribution) components
  { linear_risk_score := linear_score
    total_contributors := components.length
    top_3_contributors := components_sorted.take 3
    all_components := components_sorted }

/- ===== product_matcher.py ===== -/

/-- The `product_scores` candidate list of `match_product`: six eligibility
rules appended in priority order, `Premium_BNPL` unconditionally last. -/
def product_scores (row : Row) : List (String × ℤ) :=
  (if (row.crop_type = "maize" ∨ row.crop_type = "rice") ∧
      row.avg_order_value < 30000 then [("Seeds_BNPL", (100 : ℤ))] else []) ++
  (if (row.crop_type = "vegetables" ∨ row.crop_type = "horticulture") ∧
      row.avg_order_value < 50000 then [("Fertilizer_BNPL", 95)] else []) ++
  (if row.farm_type = "commercial" ∧ row.avg_order_value > 80000 then
      [("Equipment_Lease", 90)] else []) ++
  (if row.crop_type = "mixed" ∨
      (row.farm_type = "cooperative" ∧ row.device_trust_score > 60) then
      [("Input_Bundle", 85)] else []) ++
  (if row.avg_order_value < 15000 ∧ row.device_trust_score > 70 then
      [("Cash_Advance", 80)] else []) ++
  [("Premium_BNPL", 50)]

/-- The secondary additive boost of `match_product` for one candidate. -/
def boost (row : Row) (product : String) : ℤ :=
  (if product = "Equipment_Lease" ∧ row.farm_size_ha > 50 then 5 else 0) +
  (if (product = "Seeds_BNPL" ∨ product = "Fertilizer_BNPL") ∧
      row.farm_type = "smallholder" then 3 else 0) +
  (if product = "Input_Bundle" ∧ row.farm_size_ha > 10 then 4 else 0) +
  (if row.device_trust_score > 80 then 2 else 0)

/-- `boosted_scores`: base scores plus secondary boosts. -/
def boosted_scores (row : Row) : List (String × ℤ) :=
  (product_scores row).map (fun ps => (ps.1, ps.2 + boost row ps.1))

/-- The seen-set deduplication loop of `match_product` (keeps the first,
i.e. highest-ranked, occurrence of each product). -/
def dedupKeepFirst : List (String × ℤ) → List String → List (String × ℤ)
  | [], _ => []
  | x :: xs, seen =>
      if x.1 ∈ seen then dedupKeepFirst xs seen
      else x :: dedupKeepFirst xs (x.1 :: seen)

/-- `match_product(row)`: boosted candidates, stable descending sort,
dedup, then top-1 and up-to-top-3. -/
def match_product (row : Row) : String × List String :=
  let sorted := sortDescBy (fun ps => ps.2) (boosted_scores row)
  let unique_products := dedupKeepFirst sorted []
  ((unique_products.headD ("", 0)).1, (unique_products.take 3).map Prod.fst)

/- ===== generator.py ===== -/

/-- The per-row ground-truth labeling chain of
`generate_synthetic_agrarian_data` (first-match priority over the same six
rule conditions). -/
def true_preferred_product (row : Row) : String :=
  if (row.crop_type = "maize" ∨ row.crop_type = "rice") ∧
      row.avg_order_value < 30000 then "Seeds_BNPL"
  else if (row.crop_type = "vegetables" ∨ row.crop_type = "horticulture") ∧
      row.avg_order_value < 50000 then "Fertilizer_BNPL"
  else if row.farm_type = "commercial" ∧ row.avg_order_value > 80000 then
    "Equipment_Lease"
  else if row.crop_type = "mixed" ∨
      (row.farm_type = "cooperative" ∧ row.device_trust_score > 60) then
    "Input_Bundle"
  else if row.avg_order_value < 15000 ∧ row.device_trust_score > 70 then
    "Cash_Advance"
  else "Premium_BNPL"

/- ===== api.py ===== -/

/-- The Pydantic `ApplicantProfile` input schema. -/
structure ApplicantProfile where
  user_id : String
  region : String
  farm_type : String
  crop_type : String
  farm_size_ha : ℚ
  years_experience : ℤ
  monthly_income_est : ℚ
  recent_cash_inflows : ℚ
  avg_order_value : ℚ
  device_trust_score : ℚ
  identity_consistency : ℚ
  prior_defaults : ℤ
deriving DecidableEq

/-- `compute_liquidity_ratio(applicant)`: a bare Python float division;
division by exactly zero raises `ZeroDivisionError`, modelled as `Except`. -/
def compute_liquidity_ratio (applicant : ApplicantProfile) : Except String ℚ :=
  if applicant.monthly_income_est = 0 then
    Except.error "ZeroDivisionError: float division by zero"
  else
    Except.ok (applicant.recent_cash_inflows / applicant.monthly_income_est)

/- ===== Concrete records for witnesses and counterexamples ===== -/

/-- A healthy maize smallholder (the repository's own demo applicant,
with integral trust scores). -/
def rowA : Row :=
  ⟨"North", "smallholder", "maize", 3, 8, 42000, 115000, 18500, 76, 83, 0,
    115000 / 42000⟩

/-- A minimum-income applicant whose multiplied limit rounds to zero. -/
def rowPoor : Row :=
  ⟨"North", "smallholder", "maize", 3, 1, 5000, 1000, 1200, 50, 50, 0, 1/5⟩

/-- A horticulture applicant. -/
def rowHort : Row :=
  ⟨"South", "cooperative", "horticulture", 2, 5, 30000, 10000, 20000, 65, 70,
    1, 1/3⟩

/-- A profile with `monthly_income_est` exactly zero. -/
def appZero : ApplicantProfile :=
  ⟨"u0", "North", "smallholder", "maize", 3, 8, 0, 1000, 1200, 50, 50, 0⟩

/-- A profile with `monthly_income_est` positive but arbitrarily close to
zero (one millionth). -/
def appNearZero : ApplicantProfile :=
  ⟨"u1", "North", "smallholder", "maize", 3, 8, 1/1000000, 1000, 1200, 50, 50, 0⟩

/-- Numeric rank of a risk tier, for stating monotonicity of the ladder. -/
def tier_rank (s : String) : ℕ :=
  if s = "Low" then 0 else if s = "Medium" then 1 else if s = "High" then 2
  else 3

/-- Numeric rank of a decision, for stating monotonicity of the ladder. -/
def decision_rank (s : String) : ℕ :=
  if s = "approve" then 0 else if s = "manual_review" then 1 else 2

/- ===== Theorems ===== -/

/-- C7: `get_risk_tier` and `get_decision` are the exact threshold ladders
(Low/Medium/High/Decline at 0.15, 0.35, 0.50; approve/manual_review/decline
at 0.15, 0.50), both are monotone non-decreasing step functions, and
decision = approve iff tier = Low, manual_review iff tier is Medium or High,
decline iff tier = Decline. -/
theorem tier_decision_ladders :
    (∀ p : ℚ,
      (get_risk_tier p = "Low" ↔ p < 0.15) ∧
      (get_risk_tier p = "Medium" ↔ 0.15 ≤ p ∧ p < 0.35) ∧
      (get_risk_tier p = "High" ↔ 0.35 ≤ p ∧ p < 0.50) ∧
      (get_risk_tier p = "Decline" ↔ 0.50 ≤ p)) ∧
    (∀ p : ℚ,
      (get_decision p = "approve" ↔ p < 0.15) ∧
      (get_decision p = "manual_review" ↔ 0.15 ≤ p ∧ p < 0.50) ∧
      (get_decision p = "decline" ↔ 0.50 ≤ p)) ∧
    (∀ p q : ℚ, p ≤ q →
      tier_rank (get_risk_tier p) ≤ tier_rank (get_risk_tier q) ∧
      decision_rank (get_decision p) ≤ decision_rank (get_decision q)) ∧
    (∀ p : ℚ,
      (get_decision p = "approve" ↔ get_risk_tier p = "Low") ∧
      (get_decision p = "manual_review" ↔
        (get_risk_tier p = "Medium" ∨ get_risk_tier p = "High")) ∧
      (get_decision p = "decline" ↔ get_risk_tier p = "Decline")) := by
  refine ⟨fun p => ?_, fun p => ?_, fun p q hpq => ⟨?_, ?_⟩, fun p => ?_⟩
  · unfold get_risk_tier
    split_ifs <;> simp_all [String.reduceEq] <;>
      first
        | linarith
        | (constructor <;> intros <;> linarith)
  · unfold get_decision
    split_ifs <;> simp_all [String.reduceEq] <;>
      first
        | linarith
        | (constructor <;> intros <;> linarith)
  · by_cases h1 : p < 0.15 <;> by_cases h2 : p < 0.35 <;>
      by_cases h3 : p < 0.50 <;> by_cases k1 : q < 0.15 <;>
      by_cases k2 : q < 0.35 <;> by_cases k3 : q < 0.50 <;>
      simp [get_risk_tier, tier_rank, h1, h2, h3, k1, k2, k3,
        String.reduceEq] <;> linarith
  · by_cases h1 : p < 0.15 <;> by_cases h2 : p < 0.50 <;>
      by_cases k1 : q < 0.15 <;> by_cases k2 : q < 0.50 <;>
      simp [get_decision, decision_rank, h1, h2, k1, k2,
        String.reduceEq] <;> linarith
  · by_cases h1 : p < 0.15 <;> by_cases h2 : p < 0.35 <;>
      by_cases h3 : p < 0.50 <;>
      simp [get_risk_tier, get_decision, h1, h2, h3, String.reduceEq] <;>
      first
        | linarith
        | (constructor <;> intros <;> linarith)

/-- Witness for C7 at concrete probabilities 0.1 ≤ 0.4. -/
theorem tier_decision_ladders_witness :
    tier_rank (get_risk_tier (1/10)) ≤ tier_rank (get_risk_tier (2/5)) ∧
    decision_rank (get_decision (1/10)) ≤ decision_rank (get_decision (2/5)) :=
  tier_decision_ladders.2.2.1 (1/10) (2/5) (by norm_num)

/-- C8: with p < 0.50, the tenor is at most 4 for maize/rice and at most 3
for horticulture (the crop-cycle override is applied after the risk
adjustment). -/
theorem tenor_crop_caps (row : Row) (product : String) (p : ℚ)
    (hp : p < 0.50) :
    ((row.crop_type = "maize" ∨ row.crop_type = "rice") →
      compute_bnpl_tenor row product p ≤ 4) ∧
    (row.crop_type = "horticulture" → compute_bnpl_tenor row product p ≤ 3) := by
  have hp' : ¬(p ≥ 0.50) := not_le.mpr hp
  constructor <;> intro hc
  · simp only [compute_bnpl_tenor, if_neg hp', if_pos hc]
    exact min_le_right _ _
  · have hnc : ¬(row.crop_type = "maize" ∨ row.crop_type = "rice") := by
      simp [hc]
    simp only [compute_bnpl_tenor, if_neg hp', if_neg hnc, if_pos hc]
    exact min_le_right _ _

/-- Witness for C8: a maize row and a horticulture row at p = 0.1. -/
theorem tenor_crop_caps_witness :
    compute_bnpl_tenor rowA "Seeds_BNPL" (1/10) ≤ 4 ∧
    compute_bnpl_tenor rowHort "Fertilizer_BNPL" (1/10) ≤ 3 :=
  ⟨(tenor_crop_caps rowA "Seeds_BNPL" (1/10) (by norm_num)).1 (Or.inl rfl),
   (tenor_crop_caps rowHort "Fertilizer_BNPL" (1/10) (by norm_num)).2 rfl⟩

/-- C2 (counterexample): a profile with `monthly_income_est` positive but
arbitrarily close to zero (10⁻⁶) does not raise: `compute_liquidity_ratio`
silently returns the huge ratio 10⁹. -/
theorem liquidity_near_zero_counterexample :
    0 < appNearZero.monthly_income_est ∧
    appNearZero.monthly_income_est ≤ 1/1000 ∧
    compute_liquidity_ratio appNearZero = Except.ok 1000000000 := by
  refine ⟨by norm_num [appNearZero], by norm_num [appNearZero], ?_⟩
  simp only [compute_liquidity_ratio, appNearZero]
  norm_num

/-- C2 (amended): `compute_liquidity_ratio` raises `ZeroDivisionError`
exactly when `monthly_income_est` is exactly zero; for any nonzero
denominator it silently returns the exact quotient. -/
theorem liquidity_ratio_amended (a : ApplicantProfile) :
    (a.monthly_income_est = 0 →
      compute_liquidity_ratio a =
        Except.error "ZeroDivisionError: float division by zero") ∧
    (a.monthly_income_est ≠ 0 →
      compute_liquidity_ratio a =
        Except.ok (a.recent_cash_inflows / a.monthly_income_est)) := by
  constructor <;> intro h <;> simp [compute_liquidity_ratio, h]

/-- Witness for C2's amended claim: the exactly-zero profile raises. -/
theorem liquidity_ratio_amended_witness :
    compute_liquidity_ratio appZero =
      Except.error "ZeroDivisionError: float division by zero" :=
  (liquidity_ratio_amended appZero).1 rfl

/-- C9: `sigmoid_pd_mapping(x, 15.0, 0.35)` equals the logistic formula,
lies strictly in (0,1), and is strictly increasing. -/
theorem sigmoid_pd_mapping_props :
    (∀ x : ℝ, sigmoid_pd_mapping x 15 0.35 =
        1 / (1 + Real.exp (-(15 : ℝ) * (x - 0.35))) ∧
      0 < sigmoid_pd_mapping x 15 0.35 ∧ sigmoid_pd_mapping x 15 0.35 < 1) ∧
    (∀ x y : ℝ, x < y →
      sigmoid_pd_mapping x 15 0.35 < sigmoid_pd_mapping y 15 0.35) := by
  have hd : ∀ x : ℝ, 0 < 1.0 + Real.exp (-(15 : ℝ) * (x - 0.35)) := by
    intro x
    positivity
  constructor
  · intro x
    refine ⟨by norm_num [sigmoid_pd_mapping], ?_, ?_⟩
    · unfold sigmoid_pd_mapping
      exact div_pos (by norm_num) (hd x)
    · unfold sigmoid_pd_mapping
      rw [div_lt_one (hd x)]
      have := Real.exp_pos (-(15 : ℝ) * (x - 0.35))
      linarith
  · intro x y hxy
    unfold sigmoid_pd_mapping
    have hde : Real.exp (-(15 : ℝ) * (y - 0.35)) <
        Real.exp (-(15 : ℝ) * (x - 0.35)) :=
      Real.exp_lt_exp.mpr (by linarith)
    exact div_lt_div_of_pos_left (by norm_num) (hd y) (by linarith)

/-- Witness for C9's strict monotonicity at 0 < 1. -/
theorem sigmoid_pd_mapping_props_witness :
    (0 : ℝ) < 1 ∧ sigmoid_pd_mapping 0 15 0.35 < sigmoid_pd_mapping 1 15 0.35 :=
  ⟨by norm_num, sigmoid_pd_mapping_props.2 0 1 (by norm_num)⟩

/- Helper lemmas about rounding and the policy multipliers. -/

lemma roundHalfEven_le_floor_add_one (q : ℚ) : roundHalfEven q ≤ ⌊q⌋ + 1 := by
  simp only [roundHalfEven]
  split_ifs <;> omega

lemma floor_le_roundHalfEven (q : ℚ) : ⌊q⌋ ≤ roundHalfEven q := by
  simp only [roundHalfEven]
  split_ifs <;> omega

lemma roundHalfEven_nonneg {q : ℚ} (hq : 0 ≤ q) : 0 ≤ roundHalfEven q := by
  have h0 : (0 : ℤ) ≤ ⌊q⌋ := Int.floor_nonneg.mpr hq
  have := floor_le_roundHalfEven q
  omega

lemma roundHalfEven_mono {q1 q2 : ℚ} (h : q1 ≤ q2) :
    roundHalfEven q1 ≤ roundHalfEven q2 := by
  rcases lt_or_eq_of_le (Int.floor_mono h : ⌊q1⌋ ≤ ⌊q2⌋) with hf | hf
  · have h1 := roundHalfEven_le_floor_add_one q1
    have h2 := floor_le_roundHalfEven q2
    omega
  · simp only [roundHalfEven, ← hf]
    split_ifs <;> first | omega | linarith

lemma base_limits_get_pos (s : String) : 0 < base_limits_get s := by
  unfold base_limits_get
  split_ifs <;> norm_num

lemma risk_multiplier_nonneg (p : ℚ) : 0 ≤ risk_multiplier p :=
  le_trans (by norm_num) (le_max_left (0.2 : ℚ) _)

lemma risk_multiplier_anti {p1 p2 : ℚ} (h : p1 ≤ p2) :
    risk_multiplier p2 ≤ risk_multiplier p1 := by
  unfold risk_multiplier
  exact max_le_max le_rfl (by linarith)

lemma income_multiplier_nonneg (row : Row) (h : 0 ≤ row.monthly_income_est) :
    0 ≤ income_multiplier row :=
  le_min (by norm_num) (by positivity)

lemma tenure_multiplier_pos (row : Row) : 0 < tenure_multiplier row := by
  simp only [tenure_multiplier]
  split_ifs <;> norm_num

lemma base_tenors_get_ge_two (s : String) : 2 ≤ base_tenors_get s := by
  unfold base_tenors_get
  split_ifs <;> norm_num

lemma tenor_ge_two (row : Row) (product : String) {p : ℚ} (hp : p < 0.50) :
    2 ≤ compute_bnpl_tenor row product p := by
  have hb := base_tenors_get_ge_two product
  simp only [compute_bnpl_tenor, if_neg (not_le.mpr hp)]
  split_ifs <;> omega

/-- C1 (counterexample): a valid minimum-income applicant
(`monthly_income_est = 5000`) with p = 0.49 < 0.50 gets
`compute_bnpl_limit = 0`: base 10000 × risk 0.2 × income 0.1 = 200, which
`round(·, -3)` sends to 0.  So the limit is not strictly positive for every
p < 0.50. -/
theorem c1_limit_counterexample :
    (49/100 : ℚ) < 0.50 ∧
    compute_bnpl_limit rowPoor "Cash_Advance" (49/100) = 0 := by
  refine ⟨by norm_num, ?_⟩
  simp only [compute_bnpl_limit, base_limits_get, risk_multiplier,
    income_multiplier, tenure_multiplier, rowPoor, String.reduceEq,
    ite_false, ite_true]
  norm_num [roundHalfEven]

/-- C1 (amended): the tenor is exactly 0 iff p ≥ 0.50 and at least 2 (hence
strictly positive) otherwise; the limit is 0 whenever p ≥ 0.50, and for
p < 0.50 (with non-negative income) it is a non-negative multiple of 1000
that can still be 0 when the multiplied base rounds below 500. -/
theorem bnpl_zero_iff_amended (row : Row) (product : String) (p : ℚ)
    (hinc : 0 ≤ row.monthly_income_est) :
    (compute_bnpl_tenor row product p = 0 ↔ 0.50 ≤ p) ∧
    (0.50 ≤ p → compute_bnpl_limit row product p = 0) ∧
    (p < 0.50 → 0 < compute_bnpl_tenor row product p) ∧
    (p < 0.50 → 0 ≤ compute_bnpl_limit row product p) := by
  refine ⟨⟨fun h0 => ?_, fun hge => ?_⟩, fun hge => ?_, fun hlt => ?_,
    fun hlt => ?_⟩
  · by_contra hlt
    push_neg at hlt
    have := tenor_ge_two row product hlt
    omega
  · simp only [compute_bnpl_tenor, if_pos (by exact_mod_cast hge : p ≥ 0.50)]
  · simp only [compute_bnpl_limit, if_pos (by exact_mod_cast hge : p ≥ 0.50)]
  · have := tenor_ge_two row product hlt
    omega
  · simp only [compute_bnpl_limit, if_neg (not_le.mpr hlt)]
    have hq : 0 ≤ base_limits_get product * risk_multiplier p *
        income_multiplier row * tenure_multiplier row :=
      mul_nonneg (mul_nonneg (mul_nonneg (le_of_lt (base_limits_get_pos _))
        (risk_multiplier_nonneg _)) (income_multiplier_nonneg _ hinc))
        (le_of_lt (tenure_multiplier_pos _))
    have := roundHalfEven_nonneg (q := (base_limits_get product *
        risk_multiplier p * income_multiplier row * tenure_multiplier row) /
        1000) (by positivity)
    omega

/-- Witness for C1's amended claim at the demo applicant and p = 0.1. -/
theorem bnpl_zero_iff_amended_witness :
    (compute_bnpl_tenor rowA "Seeds_BNPL" (1/10) = 0 ↔ (0.50 : ℚ) ≤ 1/10) ∧
    ((0.50 : ℚ) ≤ 1/10 → compute_bnpl_limit rowA "Seeds_BNPL" (1/10) = 0) ∧
    ((1/10 : ℚ) < 0.50 → 0 < compute_bnpl_tenor rowA "Seeds_BNPL" (1/10)) ∧
    ((1/10 : ℚ) < 0.50 → 0 ≤ compute_bnpl_limit rowA "Seeds_BNPL" (1/10)) :=
  bnpl_zero_iff_amended rowA "Seeds_BNPL" (1/10) (by norm_num [rowA])

/-- C6: holding the row and product fixed, `compute_bnpl_limit` is
non-increasing in the late payment probability (for the documented domain,
where income is non-negative). -/
theorem compute_bnpl_limit_nonincreasing (row : Row) (product : String)
    {p1 p2 : ℚ} (hinc : 0 ≤ row.monthly_income_est) (h : p1 ≤ p2) :
    compute_bnpl_limit row product p2 ≤ compute_bnpl_limit row product p1 := by
  simp only [compute_bnpl_limit]
  by_cases h1 : p1 ≥ 0.50
  · rw [if_pos h1, if_pos (le_trans h1 h)]
  · rw [if_neg h1]
    have hq1 : 0 ≤ base_limits_get product * risk_multiplier p1 *
        income_multiplier row * tenure_multiplier row :=
      mul_nonneg (mul_nonneg (mul_nonneg (le_of_lt (base_limits_get_pos _))
        (risk_multiplier_nonneg _)) (income_multiplier_nonneg _ hinc))
        (le_of_lt (tenure_multiplier_pos _))
    by_cases h2 : p2 ≥ 0.50
    · rw [if_pos h2]
      have := roundHalfEven_nonneg (q := (base_limits_get product *
          risk_multiplier p1 * income_multiplier row * tenure_multiplier row) /
          1000) (by positivity)
      omega
    · rw [if_neg h2]
      have key : base_limits_get product * risk_multiplier p2 *
          income_multiplier row * tenure_multiplier row ≤
          base_limits_get product * risk_multiplier p1 *
          income_multiplier row * tenure_multiplier row := by
        have hr := risk_multiplier_anti h
        have hb := le_of_lt (base_limits_get_pos product)
        have hi := income_multiplier_nonneg row hinc
        have ht := le_of_lt (tenure_multiplier_pos row)
        have step1 : base_limits_get product * risk_multiplier p2 ≤
            base_limits_get product * risk_multiplier p1 :=
          mul_le_mul_of_nonneg_left hr hb
        exact mul_le_mul_of_nonneg_right
          (mul_le_mul_of_nonneg_right step1 hi) ht
      have hmono := roundHalfEven_mono
        ((div_le_div_iff_of_pos_right (by norm_num : (0:ℚ) < 1000)).mpr key)
      omega

/-- Witness for C6 at the demo applicant, p1 = 0.1 ≤ p2 = 0.4. -/
theorem compute_bnpl_limit_nonincreasing_witness :
    compute_bnpl_limit rowA "Seeds_BNPL" (2/5) ≤
      compute_bnpl_limit rowA "Seeds_BNPL" (1/10) :=
  compute_bnpl_limit_nonincreasing rowA "Seeds_BNPL"
    (by norm_num [rowA]) (by norm_num)

/- Bounds for the four bucket/lookup chains of the risk model. -/

lemma region_chain_bounds (r : String) :
    0 ≤ (if r = "North" then (0.15 : ℚ)
      else if r = "South" then 0.25
      else if r = "East" then 0.15
      else if r = "West" then 0.30
      else if r = "Central" then 0.20
      else 0.20) ∧
    (if r = "North" then (0.15 : ℚ)
      else if r = "South" then 0.25
      else if r = "East" then 0.15
      else if r = "West" then 0.30
      else if r = "Central" then 0.20
      else 0.20) ≤ 1 := by
  split_ifs <;> norm_num

lemma farm_chain_bounds (f : String) :
    0 ≤ (if f = "smallholder" then (0.35 : ℚ)
      else if f = "commercial" then 0.10
      else if f = "cooperative" then 0.20
      else 0.25) ∧
    (if f = "smallholder" then (0.35 : ℚ)
      else if f = "commercial" then 0.10
      else if f = "cooperative" then 0.20
      else 0.25) ≤ 1 := by
  split_ifs <;> norm_num

lemma exp_chain_bounds (e : ℤ) :
    0 ≤ (if e ≤ 2 then (0.40 : ℚ)
      else if e ≤ 10 then 0.25
      else if e ≤ 20 then 0.15
      else 0.10) ∧
    (if e ≤ 2 then (0.40 : ℚ)
      else if e ≤ 10 then 0.25
      else if e ≤ 20 then 0.15
      else 0.10) ≤ 1 := by
  split_ifs <;> norm_num

lemma size_chain_bounds (s : ℚ) :
    0 ≤ (if s < 1 then (0.30 : ℚ)
      else if s < 10 then 0.10
      else if s < 100 then 0.05
      else 0.15) ∧
    (if s < 1 then (0.30 : ℚ)
      else if s < 10 then 0.10
      else if s < 100 then 0.05
      else 0.15) ≤ 1 := by
  split_ifs <;> norm_num

/-- C4: on the documented input domain the linear risk score lies in
[0, 1] (each raw sub-risk is in [0, 1] and the eight weights
0.12+0.18+0.15+0.20+0.10+0.08+0.10+0.07 sum to 1.00). -/
theorem compute_linear_risk_score_bounds (row : Row)
    (hfs1 : 0.5 ≤ row.farm_size_ha) (hfs2 : row.farm_size_ha ≤ 500)
    (hye1 : 0 ≤ row.years_experience) (hye2 : row.years_experience ≤ 40)
    (hdt1 : 0 ≤ row.device_trust_score) (hdt2 : row.device_trust_score ≤ 100)
    (hic1 : 0 ≤ row.identity_consistency)
    (hic2 : row.identity_consistency ≤ 100)
    (hpd1 : 0 ≤ row.prior_defaults) (hpd2 : row.prior_defaults ≤ 5)
    (hlr : 0 ≤ row.liquidity_ratio) :
    0 ≤ compute_linear_risk_score row ∧ compute_linear_risk_score row ≤ 1 := by
  obtain ⟨ha1, ha2⟩ := region_chain_bounds row.region
  obtain ⟨hb1, hb2⟩ := farm_chain_bounds row.farm_type
  obtain ⟨hc1, hc2⟩ := exp_chain_bounds row.years_experience
  obtain ⟨hs1, hs2⟩ := size_chain_bounds row.farm_size_ha
  have hpdq : (0 : ℚ) ≤ (row.prior_defaults : ℚ) := by exact_mod_cast hpd1
  have hm1 : 0 ≤ min ((row.prior_defaults : ℚ) * 0.15) 0.75 :=
    le_min (by positivity) (by norm_num)
  have hm2 : min ((row.prior_defaults : ℚ) * 0.15) 0.75 ≤ 1 :=
    le_trans (min_le_right _ _) (by norm_num)
  have hl1 : 0 ≤ min (row.liquidity_ratio / 3.0) 1.0 :=
    le_min (by positivity) (by norm_num)
  have hl2 : min (row.liquidity_ratio / 3.0) 1.0 ≤ 1 :=
    le_trans (min_le_right _ _) (by norm_num)
  have hd1 : 0 ≤ (100 - row.device_trust_score) / 100 :=
    div_nonneg (by linarith) (by norm_num)
  have hd2 : (100 - row.device_trust_score) / 100 ≤ 1 := by
    rw [div_le_one (by norm_num : (0 : ℚ) < 100)]
    linarith
  have hi1 : 0 ≤ (100 - row.identity_consistency) / 100 :=
    div_nonneg (by linarith) (by norm_num)
  have hi2 : (100 - row.identity_consistency) / 100 ≤ 1 := by
    rw [div_le_one (by norm_num : (0 : ℚ) < 100)]
    linarith
  constructor <;> (simp only [compute_linear_risk_score]; linarith)

/-- Witness for C4 at the demo applicant. -/
theorem compute_linear_risk_score_bounds_witness :
    0 ≤ compute_linear_risk_score rowA ∧ compute_linear_risk_score rowA ≤ 1 :=
  compute_linear_risk_score_bounds rowA (by norm_num [rowA])
    (by norm_num [rowA]) (by norm_num [rowA]) (by norm_num [rowA])
    (by norm_num [rowA]) (by norm_num [rowA]) (by norm_num [rowA])
    (by norm_num [rowA]) (by norm_num [rowA]) (by norm_num [rowA])
    (by norm_num [rowA])

/- Permutation facts about the stable descending sort. -/

lemma insertDescBy_perm {α β : Type} [LinearOrder β] (key : α → β) (x : α)
    (l : List α) : List.Perm (insertDescBy key x l) (x :: l) := by
  induction l with
  | nil => simp [insertDescBy]
  | cons y ys ih =>
    simp only [insertDescBy]
    split_ifs
    · exact (ih.cons y).trans (List.Perm.swap x y ys)
    · exact List.Perm.refl _

lemma sortDescBy_perm {α β : Type} [LinearOrder β] (key : α → β)
    (l : List α) : List.Perm (sortDescBy key l) l := by
  induction l with
  | nil => simp [sortDescBy]
  | cons x xs ih =>
    simp only [sortDescBy]
    exact (insertDescBy_perm key x (sortDescBy key xs)).trans (ih.cons x)

/-- C3: the eight contributions produced by `explain_score(row, s)` sum
exactly to `compute_linear_risk_score(row)`, there are exactly eight of
them, and each contribution equals its weight times its raw sub-risk — the
two functions use identical (duplicated) formulas. -/
theorem explain_score_consistent (row : Row) (s : ℚ) :
    ((explain_score row s).all_components.map Component.contribution).sum =
      compute_linear_risk_score row ∧
    (explain_score row s).all_components.length = 8 ∧
    (explain_score row s).all_components.Forall
      (fun c => c.contribution = c.weight * c.raw_risk) := by
  simp only [explain_score]
  refine ⟨?_, ?_, ?_⟩
  · rw [List.Perm.sum_eq (List.Perm.map _ (sortDescBy_perm _ _))]
    simp only [List.map_cons, List.map_nil, List.sum_cons, List.sum_nil,
      compute_linear_risk_score]
    ring
  · rw [List.Perm.length_eq (sortDescBy_perm _ _)]
    rfl
  · rw [List.forall_iff_forall_mem]
    intro c hc
    have hm := (sortDescBy_perm (fun c : Component => c.contribution)
      _).mem_iff.mp hc
    simp only [List.mem_cons, List.not_mem_nil, or_false] at hm
    rcases hm with rfl | rfl | rfl | rfl | rfl | rfl | rfl | rfl <;> rfl

/-- C10: `match_product` always returns a non-empty `top_3` of at most 3
entries whose first element is the returned `top_1` (so `top_1 ∈ top_3`),
and the result is deterministic. -/
theorem match_product_top3_props (row : Row) :
    (match_product row).2 ≠ [] ∧
    (match_product row).2.length ≤ 3 ∧
    (match_product row).2.headD "" = (match_product row).1 ∧
    (match_product row).1 ∈ (match_product row).2 ∧
    ∀ row' : Row, row = row' → match_product row = match_product row' := by
  have hbs : boosted_scores row ≠ [] := by
    simp [boosted_scores, product_scores]
  have hne : sortDescBy (fun ps : String × ℤ => ps.2) (boosted_scores row)
      ≠ [] := by
    intro h
    apply hbs
    have hlen :=
      (sortDescBy_perm (fun ps : String × ℤ => ps.2)
        (boosted_scores row)).length_eq
    rw [h] at hlen
    exact List.eq_nil_of_length_eq_zero hlen.symm
  obtain ⟨x, xs, hx⟩ := List.exists_cons_of_ne_nil hne
  refine ⟨?_, ?_, ?_, ?_, fun row' h => by rw [h]⟩ <;>
    simp only [match_product, hx, dedupKeepFirst, List.not_mem_nil, if_false]
  · simp
  · simp only [List.length_map, List.length_take]
    exact min_le_left _ _
  · simp [List.take_succ_cons]
  · simp [List.take_succ_cons]

/-- Witness for C10's determinism conjunct at the demo applicant. -/
theorem match_product_top3_props_witness :
    match_product rowA = match_product rowA :=
  (match_product_top3_props rowA).2.2.2.2 rowA rfl

set_option maxHeartbeats 4000000 in
/-- C5: for every row, the top-1 product of `match_product` equals the
generator's first-match priority chain over the same six rule conditions:
the only differential boosts (+5 Equipment_Lease, +3 Seeds/Fertilizer,
+4 Input_Bundle; +2 uniformly) never let a lower-priority fired rule
outrank a higher-priority fired rule, and ties keep priority order because
the sort is stable. -/
theorem match_product_top1_eq_generator (row : Row) :
    (match_product row).1 = true_preferred_product row := by
  simp only [match_product, boosted_scores, product_scores, boost,
    true_preferred_product]
  split_ifs <;>
    simp only [List.map_append, List.map_cons, List.map_nil,
      List.cons_append, List.nil_append, List.append_nil, String.reduceEq,
      false_and, true_and, and_true, true_or, false_or, or_false,
      ite_true, ite_false] <;>
    (try split_ifs) <;> decide
